import Mathlib

/-!
Shallow embedding of the authentication core of the `boilerplate-fastapi`
repository: the JWT bearer provider (`app/auth/providers/jwt_provider.py`),
the session provider (`app/auth/providers/login_password_provider.py`),
the provider selector and the principal-resolution pipeline
(`app/dependencies.py`).

Modelling conventions:
* Python `dict` values occurring in token claims are modelled by `Value`
  (strings and integers; JWT `exp` datetimes are modelled by their epoch
  seconds, which is what the JWT encoding stores on the wire).
* Claims dicts are insertion-ordered association lists, as Python dicts are.
* Time is `Int` (epoch seconds); `timedelta` is a number of seconds.
* Token strings are abstracted: a `Token` is the structured content a token
  string denotes (a signed JWT, an `itsdangerous`-signed payload, or
  unstructured garbage `raw`). Cryptographic verification is modelled as
  equality of the signing key recorded in the token with the configured key.
* Python exceptions escaping the handlers are `Outcome.uncaught`;
  `fastapi.HTTPException` is `HTTPExceptionE`.
-/

namespace FastApiAuth

/-- A Python value as it occurs in token claims dicts: a string or an int
(JWT `exp` datetimes travel as epoch-second integers). -/
inductive Value where
  | str (s : String)
  | int (n : Int)
  deriving DecidableEq, Repr

/-- A Python dict with string keys, as an insertion-ordered association list
(first binding of a key is the live one; `dictUpdate` keeps keys unique). -/
def Claims : Type := List (String × Value)

instance : DecidableEq Claims := by
  unfold Claims
  infer_instance

instance : Repr Claims := by
  unfold Claims
  infer_instance

/-- Python `d.get(k)` / `d[k]`: the value bound to `k`, if any. -/
def dictGet (d : Claims) (k : String) : Option Value :=
  match d with
  | [] => none
  | (k', v) :: rest => if k' = k then some v else dictGet rest k

/-- Python `d.update({k: v})` on a dict with unique keys: replace the binding
of `k` in place if present, else append it. -/
def dictUpdate (d : Claims) (k : String) (v : Value) : Claims :=
  match d with
  | [] => [(k, v)]
  | (k', v') :: rest =>
      if k' = k then (k, v) :: rest else (k', v') :: dictUpdate rest k v

theorem dictGet_dictUpdate_self (d : Claims) (k : String) (v : Value) :
    dictGet (dictUpdate d k v) k = some v := by
  induction d with
  | nil => simp [dictUpdate, dictGet]
  | cons hd tl ih =>
      obtain ⟨k', v'⟩ := hd
      by_cases h : k' = k
      · simp [dictUpdate, dictGet, h]
      · simp [dictUpdate, dictGet, h, ih]

theorem dictGet_dictUpdate_ne (d : Claims) (k k' : String) (v : Value)
    (h : k' ≠ k) : dictGet (dictUpdate d k v) k' = dictGet d k' :=  by
  induction d with
  | nil => simp [dictUpdate, dictGet, Ne.symm h]
  | cons hd tl ih =>
      obtain ⟨k₀, v₀⟩ := hd
      by_cases h₀ : k₀ = k
      · subst h₀
        simp [dictUpdate, dictGet, Ne.symm h]
      · simp [dictUpdate, dictGet, h₀, ih]

/-- The whitespace characters of Python `str.split()` (ASCII range). -/
def isPySpace (c : Char) : Bool :=
  c = ' ' || c = '\t' || c = '\n' || c = '\x0d' || c = '\x0b' || c = '\x0c'

/-- Worker for `pySplitWs`: `acc` holds the current run, reversed. -/
def pySplitWsAux : List Char → List Char → List (List Char)
  | [], acc => if acc.isEmpty then [] else [acc.reverse]
  | c :: cs, acc =>
      if isPySpace c then
        if acc.isEmpty then pySplitWsAux cs []
        else acc.reverse :: pySplitWsAux cs []
      else pySplitWsAux cs (c :: acc)

/-- Python `s.split()` with no arguments: split on runs of whitespace,
dropping empty fields. -/
def pySplitWs (s : String) : List (List Char) :=
  pySplitWsAux s.data []

theorem pySplitWsAux_no_space (cs acc : List Char)
    (h : ∀ c ∈ cs, isPySpace c = false) :
    pySplitWsAux cs acc =
      if (acc.reverse ++ cs).isEmpty then [] else [acc.reverse ++ cs] := by
  induction cs generalizing acc with
  | nil => simp [pySplitWsAux]
  | cons c cs ih =>
      have hc : isPySpace c = false := h c (List.mem_cons_self c cs)
      have hrest : ∀ c' ∈ cs, isPySpace c' = false :=
        fun c' hc' => h c' (List.mem_cons_of_mem c hc')
      have hne : (acc.reverse ++ c :: cs).isEmpty = false := by
        cases acc.reverse <;> simp
      simp [pySplitWsAux, hc, ih _ hrest, hne]

/-- Worker for `pySplitFirstColon` over character lists. -/
def splitFirstColonAux : List Char → Option (List Char × List Char)
  | [] => none
  | c :: cs =>
      if c = ':' then some ([], cs)
      else
        match splitFirstColonAux cs with
        | some (a, b) => some (c :: a, b)
        | none => none

/-- Python `s.split(":", 1)` followed by unpacking into two variables:
`some (before, after)` split at the first `:`; `none` when there is no `:`
(the unpacking then raises `ValueError`). -/
def pySplitFirstColon (s : String) : Option (String × String) :=
  match splitFirstColonAux s.data with
  | some (a, b) => some (String.mk a, String.mk b)
  | none => none

theorem splitFirstColonAux_append (a b : List Char)
    (h : ∀ c ∈ a, c ≠ ':') :
    splitFirstColonAux (a ++ ':' :: b) = some (a, b) := by
  induction a with
  | nil => simp [splitFirstColonAux]
  | cons c cs ih =>
      have hc : c ≠ ':' := h c (List.mem_cons_self c cs)
      have hrest : ∀ c' ∈ cs, c' ≠ ':' :=
        fun c' hc' => h c' (List.mem_cons_of_mem c hc')
      simp [splitFirstColonAux, hc, ih hrest]

/-- Digit-run parser for Python `int(str)`: accepts `digit (_? digit)*`,
accumulating the value; `acc = none` until the first digit is seen. -/
def pyDigitsAux : List Char → Option Nat → Option Nat
  | [], acc => acc
  | c :: cs, acc =>
      if c.isDigit then pyDigitsAux cs (some ((acc.getD 0) * 10 + (c.toNat - 48)))
      else if c = '_' then
        match acc, cs with
        | some a, d :: _ => if d.isDigit then pyDigitsAux cs (some a) else none
        | _, _ => none
      else none

/-- Python `int(s)` for a decimal string: strip surrounding whitespace, allow
one optional sign, then digits with single underscores between digits.
`none` models the `ValueError` raised on any other input. -/
def pyIntOfString (s : String) : Option Int :=
  let cs := (s.data.dropWhile isPySpace).reverse.dropWhile isPySpace |>.reverse
  match cs with
  | '+' :: rest => (pyDigitsAux rest none).map Int.ofNat
  | '-' :: rest => (pyDigitsAux rest none).map (fun n => -(n : Int))
  | _ => (pyDigitsAux cs none).map Int.ofNat

/-- Python `str()` applied to a claims value (used by the f-string in the
session provider's `create_access_token`). -/
def pyStr : Value → String
  | .str s => s
  | .int n => toString n

/-- Python `int()` applied to a claims value: ints pass through, strings are
parsed, anything unparsable raises (modelled `none`). -/
def pyIntOfValue : Value → Option Int
  | .str s => pyIntOfString s
  | .int n => some n

/-- Python `s.lower()` (ASCII range, which is all the scheme comparison in
`get_current_user` distinguishes). -/
def pyLower (s : String) : String :=
  String.mk (s.data.map fun c =>
    if 'A' ≤ c ∧ c ≤ 'Z' then Char.ofNat (c.toNat + 32) else c)

/-- The configuration fields of `app/core/config.py` consumed by the auth
core. `SESSION_SECRET_KEY` is `str | None` with default `None`. -/
structure Config where
  AUTH_TYPE : String
  SECRET_KEY : String
  ALGORITHM : String
  ACCESS_TOKEN_EXPIRE_MINUTES : Int
  REFRESH_TOKEN_EXPIRE_DAYS : Int
  SESSION_SECRET_KEY : Option String
  SESSION_EXPIRE_MINUTES : Int
  deriving DecidableEq, Repr

/-- A JWT produced by `jwt.encode(payload, key, algorithm)`: the signature is
modelled by recording the signing key and algorithm in the token. -/
structure JwtToken where
  payload : Claims
  key : String
  alg : String
  deriving DecidableEq, Repr

/-- A token produced by `itsdangerous.TimestampSigner(key).sign(payload)`:
the payload, the embedded signing timestamp, and the signing key (standing
for the signature). -/
structure SignedToken where
  payload : String
  timestamp : Int
  key : String
  deriving DecidableEq, Repr

/-- The structured content a token string denotes: a JWT, an itsdangerous
signed string, or unstructured garbage that parses as neither. -/
inductive Token where
  | jwt (t : JwtToken)
  | signed (t : SignedToken)
  | raw (s : String)
  deriving DecidableEq, Repr

/-- `fastapi.HTTPException(status_code, detail, headers)`. -/
structure HTTPExceptionE where
  status_code : Nat
  detail : String
  headers : Option (List (String × String))
  deriving DecidableEq, Repr

/-- The `{"WWW-Authenticate": "Bearer"}` headers dict. -/
def bearerHeaders : List (String × String) := [("WWW-Authenticate", "Bearer")]

/-- A Python exception escaping the auth core uncaught. -/
inductive PyError where
  | valueError (msg : String)
  | attributeError (msg : String)
  | typeError (msg : String)
  deriving DecidableEq, Repr

/-- A user row as the pipeline reads it (`app/models/user.py`): the id and
the active flag. -/
structure UserE where
  id : Int
  is_active : Bool
  deriving DecidableEq, Repr

/-- What one resolution of `get_current_user` / `get_current_active_user`
produces: a user, an `HTTPException`, or an uncaught Python exception. -/
inductive Outcome where
  | ok (u : UserE)
  | http (e : HTTPExceptionE)
  | uncaught (e : PyError)
  deriving DecidableEq, Repr

namespace JWTProvider

/-- `JWTProvider.create_access_token`: copy the claims, compute
`exp = utcnow + (expires_delta or ACCESS_TOKEN_EXPIRE_MINUTES minutes)`
(Python `if expires_delta:` is false for `None` and for a zero timedelta),
overwrite `exp`, and sign with `SECRET_KEY` / `ALGORITHM`. Returns the
caller's dict after the call (unchanged, since the code copies) and the
token. -/
def create_access_token (cfg : Config) (data : Claims)
    (expires_delta : Option Int) (now : Int) : Claims × JwtToken :=
  let expire : Int :=
    match expires_delta with
    | some d => if d = 0 then now + cfg.ACCESS_TOKEN_EXPIRE_MINUTES * 60 else now + d
    | none => now + cfg.ACCESS_TOKEN_EXPIRE_MINUTES * 60
  let to_encode := dictUpdate data "exp" (.int expire)
  (data, { payload := to_encode, key := cfg.SECRET_KEY, alg := cfg.ALGORITHM })

/-- `JWTProvider.create_refresh_token`: like the access token with
`exp = utcnow + REFRESH_TOKEN_EXPIRE_DAYS days`. -/
def create_refresh_token (cfg : Config) (data : Claims) (now : Int) :
    Claims × JwtToken :=
  let to_encode :=
    dictUpdate data "exp" (.int (now + cfg.REFRESH_TOKEN_EXPIRE_DAYS * 86400))
  (data, { payload := to_encode, key := cfg.SECRET_KEY, alg := cfg.ALGORITHM })

/-- `jwt.decode(token, key, algorithms)` at time `now` (PyJWT, zero leeway):
wrong key or algorithm, or a non-JWT string, raises `InvalidTokenError`;
an `exp` claim with `exp ≤ now` raises `ExpiredSignatureError`; an `exp`
that is not an integer (after Python `int()` coercion of a string) raises
`DecodeError ≤ InvalidTokenError`. -/
inductive JwtDecodeError where
  | expiredSignature
  | invalidToken
  deriving DecidableEq, Repr

/-- See `JwtDecodeError`. -/
def jwtDecode (tok : Token) (key : String) (algs : List String) (now : Int) :
    Except JwtDecodeError Claims :=
  match tok with
  | .jwt t =>
      if t.key = key ∧ t.alg ∈ algs then
        match dictGet t.payload "exp" with
        | some v =>
            match pyIntOfValue v with
            | some e =>
                if e ≤ now then .error .expiredSignature else .ok t.payload
            | none => .error .invalidToken
        | none => .ok t.payload
      else .error .invalidToken
  | _ => .error .invalidToken

/-- `JWTProvider.verify_token`: decode, mapping `ExpiredSignatureError` and
`InvalidTokenError` to 401 `HTTPException`s carrying the Bearer hint. The
`Option` layer mirrors the Python annotation `Dict[str, Any] | None`. -/
def verify_token (cfg : Config) (tok : Token) (now : Int) :
    Except HTTPExceptionE (Option Claims) :=
  match jwtDecode tok cfg.SECRET_KEY [cfg.ALGORITHM] now with
  | .ok payload => .ok (some payload)
  | .error .expiredSignature =>
      .error { status_code := 401, detail := "Token has expired",
               headers := some bearerHeaders }
  | .error .invalidToken =>
      .error { status_code := 401, detail := "Invalid token",
               headers := some bearerHeaders }

/-- `JWTProvider.get_current_user`: `verify_token`, then a 401 on a `None`
payload. -/
def get_current_user (cfg : Config) (tok : Token) (now : Int) :
    Except HTTPExceptionE Claims :=
  match verify_token cfg tok now with
  | .error e => .error e
  | .ok none =>
      .error { status_code := 401, detail := "Could not validate credentials",
               headers := some bearerHeaders }
  | .ok (some payload) => .ok payload

end JWTProvider

namespace LoginPasswordProvider

/-- The state a constructed `LoginPasswordProvider` holds: the signer's key
and `max_age = SESSION_EXPIRE_MINUTES * 60` seconds. -/
structure State where
  signerKey : String
  max_age : Int
  deriving DecidableEq, Repr

/-- `LoginPasswordProvider.__init__`: raises `ValueError` when
`SESSION_SECRET_KEY` is falsy (`None` or the empty string), else builds the
`TimestampSigner` and converts the expiry to seconds. -/
def construct (cfg : Config) : Except String State :=
  match cfg.SESSION_SECRET_KEY with
  | none => .error "SESSION_SECRET_KEY is required for session authentication"
  | some k =>
      if k = "" then
        .error "SESSION_SECRET_KEY is required for session authentication"
      else .ok { signerKey := k, max_age := cfg.SESSION_EXPIRE_MINUTES * 60 }

/-- `LoginPasswordProvider.create_access_token`: generate a random
URL-safe session id (passed in as `session_id`, the random material), and
sign `f"{session_id}:{data.get('sub', '')}"` with the timestamp `now`. -/
def create_access_token (st : State) (session_id : String) (data : Claims)
    (now : Int) : Token :=
  let sub : String :=
    match dictGet data "sub" with
    | some v => pyStr v
    | none => ""
  .signed { payload := session_id ++ ":" ++ sub, timestamp := now,
            key := st.signerKey }

/-- Outcome of `TimestampSigner.unsign(token, max_age)`: `BadSignature` for
a wrong key or a non-itsdangerous string, `SignatureExpired` when
`now - timestamp > max_age`. -/
inductive UnsignError where
  | badSignature
  | signatureExpired
  deriving DecidableEq, Repr

/-- See `UnsignError`. -/
def timestampUnsign (tok : Token) (key : String) (max_age : Int) (now : Int) :
    Except UnsignError String :=
  match tok with
  | .signed t =>
      if t.key = key then
        if now - t.timestamp > max_age then .error .signatureExpired
        else .ok t.payload
      else .error .badSignature
  | _ => .error .badSignature

/-- `LoginPasswordProvider.verify_token`: unsign with `max_age`, split the
payload on the first `:` into `session_id, user_id` (an unsplittable payload
raises `ValueError`, caught together with `BadSignature`), and return
`{"sub": user_id, "session_id": session_id}`. Neither 401 here carries any
headers dict. -/
def verify_token (st : State) (tok : Token) (now : Int) :
    Except HTTPExceptionE (Option Claims) :=
  match timestampUnsign tok st.signerKey st.max_age now with
  | .error .signatureExpired =>
      .error { status_code := 401, detail := "Session has expired",
               headers := none }
  | .error .badSignature =>
      .error { status_code := 401, detail := "Invalid session",
               headers := none }
  | .ok unsigned =>
      match pySplitFirstColon unsigned with
      | none =>
          .error { status_code := 401, detail := "Invalid session",
                   headers := none }
      | some (session_id, user_id) =>
          .ok (some [("sub", .str user_id), ("session_id", .str session_id)])

/-- `LoginPasswordProvider.get_current_user`: `verify_token`, then a 401 on
a `None` payload. -/
def get_current_user (st : State) (tok : Token) (now : Int) :
    Except HTTPExceptionE Claims :=
  match verify_token st tok now with
  | .error e => .error e
  | .ok none =>
      .error { status_code := 401, detail := "Could not validate credentials",
               headers := none }
  | .ok (some payload) => .ok payload

end LoginPasswordProvider

/-- The provider instance `get_auth_provider` returns. -/
inductive Provider where
  | jwtP
  | loginPasswordP (st : LoginPasswordProvider.State)
  deriving DecidableEq, Repr

/-- `get_auth_provider` (`app/dependencies.py`): dispatch on
`settings.AUTH_TYPE`; `"jwt"` and `"login_password"` each build one concrete
provider, anything else raises
`ValueError(f"Unsupported authentication type: {settings.AUTH_TYPE}")`.
Constructing the session provider may itself raise (missing secret). -/
def get_auth_provider (cfg : Config) : Except String Provider :=
  if cfg.AUTH_TYPE = "jwt" then .ok .jwtP
  else if cfg.AUTH_TYPE = "login_password" then
    (LoginPasswordProvider.construct cfg).map .loginPasswordP
  else .error ("Unsupported authentication type: " ++ cfg.AUTH_TYPE)

/-- Dynamic dispatch of `auth_provider.verify_token`. -/
def provider_verify_token (cfg : Config) (p : Provider) (tok : Token)
    (now : Int) : Except HTTPExceptionE (Option Claims) :=
  match p with
  | .jwtP => JWTProvider.verify_token cfg tok now
  | .loginPasswordP st => LoginPasswordProvider.verify_token st tok now

/-- The body of `get_current_user` (`app/dependencies.py`), run after the
dependencies are resolved: reject a falsy `Authorization` header, split it
into scheme and token (any other field count raises `ValueError`, caught as
a 401), enforce the `bearer` scheme case-insensitively, verify the token,
read `payload.get("sub")` (an `AttributeError` would escape if the payload
were `None`), reject a missing subject, convert with `int()` (a
`ValueError` here escapes uncaught), and look the user up in `db`. -/
def get_current_user_body (cfg : Config) (p : Provider) (env : String → Token)
    (db : Int → Option UserE) (now : Int) (authorization : Option String) :
    Outcome :=
  match authorization with
  | none =>
      .http { status_code := 401, detail := "Not authenticated",
              headers := some bearerHeaders }
  | some auth =>
      if auth = "" then
        .http { status_code := 401, detail := "Not authenticated",
                headers := some bearerHeaders }
      else
        match pySplitWs auth with
        | [schemeCs, tokenCs] =>
            if pyLower (String.mk schemeCs) = "bearer" then
              match provider_verify_token cfg p (env (String.mk tokenCs)) now with
              | .error e => .http e
              | .ok none =>
                  .uncaught (.attributeError
                    "NoneType object has no attribute get")
              | .ok (some payload) =>
                  match dictGet payload "sub" with
                  | none =>
                      .http { status_code := 401,
                              detail := "Invalid token payload",
                              headers := some bearerHeaders }
                  | some v =>
                      match pyIntOfValue v with
                      | none =>
                          .uncaught (.valueError
                            ("invalid literal for int() with base 10: "
                              ++ pyStr v))
                      | some uid =>
                          match db uid with
                          | none =>
                              .http { status_code := 401,
                                      detail := "User not found",
                                      headers := some bearerHeaders }
                          | some user => .ok user
            else
              .http { status_code := 401,
                      detail := "Invalid authentication scheme",
                      headers := some bearerHeaders }
        | _ =>
            .http { status_code := 401,
                    detail := "Invalid authorization header",
                    headers := some bearerHeaders }

/-- One request through the `get_current_user` dependency: FastAPI first
resolves the `Depends(get_auth_provider)` sub-dependency — during request
handling, for every request — so a `ValueError` from the selector or the
session provider's constructor escapes here, before the body runs. -/
def handle_get_current_user (cfg : Config) (env : String → Token)
    (db : Int → Option UserE) (now : Int) (authorization : Option String) :
    Outcome :=
  match get_auth_provider cfg with
  | .error msg => .uncaught (.valueError msg)
  | .ok p => get_current_user_body cfg p env db now authorization

/-- `get_current_active_user`: `get_current_user`, then a 403
`HTTPException(detail="Inactive user")` (no headers) when `is_active` is
false. -/
def handle_get_current_active_user (cfg : Config) (env : String → Token)
    (db : Int → Option UserE) (now : Int) (authorization : Option String) :
    Outcome :=
  match handle_get_current_user cfg env db now authorization with
  | .ok u =>
      if u.is_active then .ok u
      else .http { status_code := 403, detail := "Inactive user",
                   headers := none }
  | other => other

/-- The characters `secrets.token_urlsafe` can produce (URL-safe Base64). -/
def isUrlSafeChar (c : Char) : Bool :=
  c.isAlphanum || c = '-' || c = '_'

theorem pySplitWs_bearer (t : String) (hne : t.data ≠ [])
    (hns : ∀ c ∈ t.data, isPySpace c = false) :
    pySplitWs ("Bearer " ++ t) = [['B', 'e', 'a', 'r', 'e', 'r'], t.data] := by
  have hd : ("Bearer " ++ t).data
      = 'B' :: 'e' :: 'a' :: 'r' :: 'e' :: 'r' :: ' ' :: t.data := by
    rw [String.data_append]
    rfl
  unfold pySplitWs
  rw [hd]
  have h1 : pySplitWsAux ('B' :: 'e' :: 'a' :: 'r' :: 'e' :: 'r' :: ' ' :: t.data) []
      = ['r', 'e', 'r', 'a', 'e', 'B'].reverse :: pySplitWsAux t.data [] := by
    simp [pySplitWsAux, isPySpace]
  rw [h1, pySplitWsAux_no_space t.data [] hns]
  cases ht : t.data with
  | nil => exact absurd ht hne
  | cons c cs => simp

theorem jwt_verify_error_props (cfg : Config) (tok : Token) (now : Int)
    (e : HTTPExceptionE) (h : JWTProvider.verify_token cfg tok now = .error e) :
    e.status_code = 401 ∧ e.headers = some bearerHeaders := by
  unfold JWTProvider.verify_token at h
  split at h <;> (try injection h with h) <;> (try subst h) <;> simp_all

theorem lp_verify_error_props (st : LoginPasswordProvider.State) (tok : Token)
    (now : Int) (e : HTTPExceptionE)
    (h : LoginPasswordProvider.verify_token st tok now = .error e) :
    e.status_code = 401 ∧ e.headers = none := by
  unfold LoginPasswordProvider.verify_token at h
  split at h <;> (try split at h) <;> (try injection h with h) <;>
    (try subst h) <;> simp_all

theorem jwt_verify_ok_isSome (cfg : Config) (tok : Token) (now : Int)
    (c : Option Claims) (h : JWTProvider.verify_token cfg tok now = .ok c) :
    c.isSome = true := by
  unfold JWTProvider.verify_token at h
  split at h <;> (try injection h with h) <;> (try subst h) <;> simp_all

theorem lp_verify_ok_isSome (st : LoginPasswordProvider.State) (tok : Token)
    (now : Int) (c : Option Claims)
    (h : LoginPasswordProvider.verify_token st tok now = .ok c) :
    c.isSome = true := by
  unfold LoginPasswordProvider.verify_token at h
  split at h <;> (try split at h) <;> (try injection h with h) <;>
    (try subst h) <;> simp_all

theorem provider_verify_error_status (cfg : Config) (p : Provider)
    (tok : Token) (now : Int) (e : HTTPExceptionE)
    (h : provider_verify_token cfg p tok now = .error e) :
    e.status_code = 401 := by
  cases p with
  | jwtP => exact (jwt_verify_error_props cfg tok now e h).1
  | loginPasswordP st => exact (lp_verify_error_props st tok now e h).1

/-- Every `HTTPException` the `get_current_user` dependency raises has
status 401 (the 403 lives only in `get_current_active_user`). -/
theorem handle_http_status (cfg : Config) (env : String → Token)
    (db : Int → Option UserE) (now : Int) (auth : Option String)
    (e : HTTPExceptionE)
    (h : handle_get_current_user cfg env db now auth = .http e) :
    e.status_code = 401 := by
  unfold handle_get_current_user at h
  split at h
  · exact absurd h (by simp)
  · unfold get_current_user_body at h
    iterate 8 (all_goals try split at h)
    all_goals try injection h with h
    all_goals try subst h
    all_goals first
      | rfl
      | simp_all
      | exact provider_verify_error_status _ _ _ _ _ (by assumption)

/-- A provider verification error is always a 401, and it carries the
Bearer hint unless the session provider's `verify_token` raised it. -/
theorem provider_verify_error_hint (cfg : Config) (p : Provider) (tok : Token)
    (now : Int) (e : HTTPExceptionE)
    (h : provider_verify_token cfg p tok now = .error e) :
    e.status_code = 401 ∧
    (e.headers = some bearerHeaders ∨
      ∃ st tok', LoginPasswordProvider.verify_token st tok' now = .error e) := by
  cases p with
  | jwtP =>
      obtain ⟨h1, h2⟩ := jwt_verify_error_props cfg tok now e h
      exact ⟨h1, Or.inl h2⟩
  | loginPasswordP st =>
      exact ⟨(lp_verify_error_props st tok now e h).1, Or.inr ⟨st, tok, h⟩⟩

/-- Whatever provider is configured, every `HTTPException` the
`get_current_user` dependency raises is a 401, and it carries the
`WWW-Authenticate: Bearer` hint except when it is an error the session
provider's `verify_token` raised — the 401s raised in `dependencies.py`
itself (missing header, wrong scheme, malformed header, missing subject,
unknown user) all carry the hint. -/
theorem handle_http_bearer_or_session (cfg : Config) (env : String → Token)
    (db : Int → Option UserE) (now : Int) (auth : Option String)
    (e : HTTPExceptionE)
    (h : handle_get_current_user cfg env db now auth = .http e) :
    e.status_code = 401 ∧
    (e.headers = some bearerHeaders ∨
      ∃ st tok, LoginPasswordProvider.verify_token st tok now = .error e) := by
  unfold handle_get_current_user at h
  split at h
  · exact absurd h (by simp)
  · unfold get_current_user_body at h
    iterate 8 (all_goals try split at h)
    all_goals try injection h with h
    all_goals try subst h
    all_goals first
      | exact ⟨rfl, Or.inl rfl⟩
      | simp_all
      | exact provider_verify_error_hint _ _ _ _ _ (by assumption)

/-- Under the JWT provider, every `HTTPException` the `get_current_user`
dependency raises is a 401 carrying the `WWW-Authenticate: Bearer` hint. -/
theorem handle_jwt_http_props (cfg : Config) (env : String → Token)
    (db : Int → Option UserE) (now : Int) (auth : Option String)
    (e : HTTPExceptionE) (hjwt : cfg.AUTH_TYPE = "jwt")
    (h : handle_get_current_user cfg env db now auth = .http e) :
    e.status_code = 401 ∧ e.headers = some bearerHeaders := by
  have hp : get_auth_provider cfg = .ok .jwtP := by
    unfold get_auth_provider
    rw [if_pos hjwt]
  simp only [handle_get_current_user, hp] at h
  unfold get_current_user_body at h
  iterate 8 (all_goals try split at h)
  all_goals try injection h with h
  all_goals try subst h
  all_goals first
    | exact ⟨rfl, rfl⟩
    | simp_all
    | exact jwt_verify_error_props _ _ _ _ (by assumption)

theorem bearer_prefix_ne_empty (t : String) : "Bearer " ++ t ≠ "" := by
  intro hE
  have h := congrArg String.data hE
  rw [String.data_append] at h
  simp at h

/-- Reduction of one `get_current_user` request once the header is
`"Bearer <t>"` (with `t` a nonempty whitespace-free token string) and the
provider has verified the token to `payload`. -/
theorem handle_verified (cfg : Config) (p : Provider) (env : String → Token)
    (db : Int → Option UserE) (now : Int) (t : String) (payload : Claims)
    (hp : get_auth_provider cfg = .ok p)
    (hne : t.data ≠ []) (hns : ∀ c ∈ t.data, isPySpace c = false)
    (hv : provider_verify_token cfg p (env t) now = .ok (some payload)) :
    handle_get_current_user cfg env db now (some ("Bearer " ++ t)) =
      (match dictGet payload "sub" with
       | none => .http { status_code := 401, detail := "Invalid token payload",
                         headers := some bearerHeaders }
       | some v =>
         match pyIntOfValue v with
         | none => .uncaught (.valueError
             ("invalid literal for int() with base 10: " ++ pyStr v))
         | some uid =>
           match db uid with
           | none => .http { status_code := 401, detail := "User not found",
                             headers := some bearerHeaders }
           | some user => .ok user) := by
  simp only [handle_get_current_user, hp, get_current_user_body]
  rw [if_neg (bearer_prefix_ne_empty t)]
  rw [pySplitWs_bearer t hne hns]
  have hsch : pyLower (String.mk ['B', 'e', 'a', 'r', 'e', 'r']) = "bearer" := by
    decide
  have htk : String.mk t.data = t := rfl
  simp only [hsch, htk, if_true, hv]

theorem urlSafe_ne_colon (c : Char) (h : isUrlSafeChar c = true) : c ≠ ':' := by
  intro hc
  subst hc
  exact absurd h (by decide)

theorem pyStr_str (s : String) : pyStr (.str s) = s := rfl

/-- Session round trip at issue time: `create_access_token` then
`verify_token` recovers `{"sub": subject, "session_id": sid}` whenever the
generated session id is URL-safe (hence `:`-free). -/
theorem lp_round_trip (st : LoginPasswordProvider.State) (sid : String)
    (data : Claims) (sub : String) (now : Int)
    (hsub : dictGet data "sub" = some (.str sub))
    (hsid : ∀ c ∈ sid.data, isUrlSafeChar c = true)
    (hage : 0 ≤ st.max_age) :
    LoginPasswordProvider.verify_token st
      (LoginPasswordProvider.create_access_token st sid data now) now
      = .ok (some [("sub", .str sub), ("session_id", .str sid)]) := by
  unfold LoginPasswordProvider.create_access_token
  rw [hsub]
  unfold LoginPasswordProvider.verify_token LoginPasswordProvider.timestampUnsign
  have hdata : (sid ++ ":" ++ sub).data = sid.data ++ ':' :: sub.data := by
    rw [String.data_append, String.data_append]
    have hc : ":".data = [':'] := rfl
    rw [hc, List.append_assoc]
    rfl
  have hsplit : pySplitFirstColon (sid ++ ":" ++ sub) = some (sid, sub) := by
    unfold pySplitFirstColon
    rw [hdata, splitFirstColonAux_append sid.data (sub.data)
      (fun c hc => urlSafe_ne_colon c (hsid c hc))]
  simp [pyStr_str, hsplit, Int.not_lt.mpr hage]

/-- Bearer round trip at issue time: `create_access_token` then
`verify_token` succeeds and hands back the encoded claims, as long as the
applicable TTL is positive. -/
theorem jwt_round_trip (cfg : Config) (data : Claims) (ed : Option Int)
    (now : Int) (hacc : 0 < cfg.ACCESS_TOKEN_EXPIRE_MINUTES)
    (hed : ∀ d, ed = some d → 0 < d) :
    JWTProvider.verify_token cfg
      (.jwt (JWTProvider.create_access_token cfg data ed now).2) now
      = .ok (some (JWTProvider.create_access_token cfg data ed now).2.payload) := by
  unfold JWTProvider.verify_token JWTProvider.jwtDecode
    JWTProvider.create_access_token
  cases ed with
  | none =>
      have hgt : ¬ (now + cfg.ACCESS_TOKEN_EXPIRE_MINUTES * 60 ≤ now) := by
        omega
      simp [dictGet_dictUpdate_self, pyIntOfValue, hgt]
  | some d =>
      have hd := hed d rfl
      have hd0 : ¬ (d = 0) := by omega
      have hgt : ¬ (now + d ≤ now) := by omega
      simp [dictGet_dictUpdate_self, pyIntOfValue, hd0, hgt]

theorem jwt_verify_error_detail (cfg : Config) (tok : Token) (now : Int)
    (e : HTTPExceptionE) (h : JWTProvider.verify_token cfg tok now = .error e) :
    e.detail = "Token has expired" ∨ e.detail = "Invalid token" := by
  unfold JWTProvider.verify_token at h
  split at h <;> (try injection h with h) <;> (try subst h) <;> simp_all

theorem lp_verify_error_detail (st : LoginPasswordProvider.State) (tok : Token)
    (now : Int) (e : HTTPExceptionE)
    (h : LoginPasswordProvider.verify_token st tok now = .error e) :
    e.detail = "Session has expired" ∨ e.detail = "Invalid session" := by
  unfold LoginPasswordProvider.verify_token at h
  split at h <;> (try split at h) <;> (try injection h with h) <;>
    (try subst h) <;> simp_all

theorem provider_verify_ok_isSome (cfg : Config) (p : Provider) (tok : Token)
    (now : Int) (c : Option Claims)
    (h : provider_verify_token cfg p tok now = .ok c) : c.isSome = true := by
  cases p with
  | jwtP => exact jwt_verify_ok_isSome cfg tok now c h
  | loginPasswordP st => exact lp_verify_ok_isSome st tok now c h

/-- The only 403 the resolution pipeline can produce is the activity
check's `Inactive user`, and it presupposes a successfully resolved,
inactive user. -/
theorem forbidden_only_from_activity (cfg : Config) (env : String → Token)
    (db : Int → Option UserE) (now : Int) (auth : Option String)
    (e : HTTPExceptionE)
    (h : handle_get_current_active_user cfg env db now auth = .http e)
    (h403 : e.status_code = 403) :
    e = { status_code := 403, detail := "Inactive user", headers := none } ∧
    ∃ u, handle_get_current_user cfg env db now auth = .ok u ∧
      u.is_active = false := by
  unfold handle_get_current_active_user at h
  cases hinner : handle_get_current_user cfg env db now auth with
  | ok u =>
      rw [hinner] at h
      by_cases hact : u.is_active
      · simp [hact] at h
      · simp only [hact, if_false] at h
        injection h with h
        exact ⟨h.symm, u, rfl, by simp [hact]⟩
  | http e' =>
      rw [hinner] at h
      injection h with h
      subst h
      have h401 := handle_http_status cfg env db now auth e' hinner
      omega
  | uncaught pe =>
      rw [hinner] at h
      exact absurd h (by simp)

/-- A configuration selecting the JWT provider (the defaults of
`app/core/config.py` with a secret supplied). -/
def cfgJwtW : Config where
  AUTH_TYPE := "jwt"
  SECRET_KEY := "sec"
  ALGORITHM := "HS256"
  ACCESS_TOKEN_EXPIRE_MINUTES := 30
  REFRESH_TOKEN_EXPIRE_DAYS := 7
  SESSION_SECRET_KEY := none
  SESSION_EXPIRE_MINUTES := 60

/-- A configuration selecting the session provider, with a session secret. -/
def cfgSessW : Config where
  AUTH_TYPE := "login_password"
  SECRET_KEY := "sec"
  ALGORITHM := "HS256"
  ACCESS_TOKEN_EXPIRE_MINUTES := 30
  REFRESH_TOKEN_EXPIRE_DAYS := 7
  SESSION_SECRET_KEY := some "ssec"
  SESSION_EXPIRE_MINUTES := 60

/-- A configuration with an unsupported `AUTH_TYPE`. -/
def cfgBogusW : Config where
  AUTH_TYPE := "oauth2"
  SECRET_KEY := "sec"
  ALGORITHM := "HS256"
  ACCESS_TOKEN_EXPIRE_MINUTES := 30
  REFRESH_TOKEN_EXPIRE_DAYS := 7
  SESSION_SECRET_KEY := none
  SESSION_EXPIRE_MINUTES := 60

/-- The session provider selected while `SESSION_SECRET_KEY` is unset. -/
def cfgSessNoKeyW : Config where
  AUTH_TYPE := "login_password"
  SECRET_KEY := "sec"
  ALGORITHM := "HS256"
  ACCESS_TOKEN_EXPIRE_MINUTES := 30
  REFRESH_TOKEN_EXPIRE_DAYS := 7
  SESSION_SECRET_KEY := none
  SESSION_EXPIRE_MINUTES := 60

/-- The session provider selected with an empty `SESSION_SECRET_KEY`. -/
def cfgSessEmptyKeyW : Config where
  AUTH_TYPE := "login_password"
  SECRET_KEY := "sec"
  ALGORITHM := "HS256"
  ACCESS_TOKEN_EXPIRE_MINUTES := 30
  REFRESH_TOKEN_EXPIRE_DAYS := 7
  SESSION_SECRET_KEY := some ""
  SESSION_EXPIRE_MINUTES := 60

/-- An unsupported `AUTH_TYPE` distinct from `cfgBogusW`. -/
def cfgNoneW : Config where
  AUTH_TYPE := "none"
  SECRET_KEY := "sec"
  ALGORITHM := "HS256"
  ACCESS_TOKEN_EXPIRE_MINUTES := 30
  REFRESH_TOKEN_EXPIRE_DAYS := 7
  SESSION_SECRET_KEY := none
  SESSION_EXPIRE_MINUTES := 60

/-- A constructed session provider state. -/
def stW : LoginPasswordProvider.State where
  signerKey := "ssec"
  max_age := 3600

/-- A JWT signed with `cfgJwtW`'s secret whose subject is numeric. -/
def tokGoodW : Token :=
  .jwt { payload := [("sub", Value.str "42")], key := "sec", alg := "HS256" }

/-- A JWT signed with `cfgJwtW`'s secret whose subject is non-numeric. -/
def tokBadSubW : Token :=
  .jwt { payload := [("sub", Value.str "abc")], key := "sec", alg := "HS256" }

/-- A JWT signed with `cfgJwtW`'s secret with no subject claim. -/
def tokNoSubW : Token :=
  .jwt { payload := [("x", Value.str "y")], key := "sec", alg := "HS256" }

/-- An empty user repository. -/
def dbEmptyW : Int → Option UserE := fun _ => none

/-- A repository holding exactly the inactive user 42. -/
def dbInactiveW : Int → Option UserE := fun i =>
  if i = 42 then some { id := 42, is_active := false } else none

/-- The wrong-scheme rejection raised by `get_current_user`. -/
def schemeErrW : HTTPExceptionE :=
  { status_code := 401, detail := "Invalid authentication scheme",
    headers := some bearerHeaders }

/-- The missing-header rejection raised by `get_current_user`. -/
def notAuthW : HTTPExceptionE :=
  { status_code := 401, detail := "Not authenticated",
    headers := some bearerHeaders }

/-- The session provider's bad-signature rejection. -/
def sessErrW : HTTPExceptionE :=
  { status_code := 401, detail := "Invalid session", headers := none }

/-- C1 counterexample: a token the JWT provider verifies to claims whose
`sub` is the non-numeric string `"abc"` makes the pipeline raise an uncaught
`ValueError` from `int(user_id)` — not a 401-class rejection. -/
theorem C1_counterexample :
    JWTProvider.verify_token cfgJwtW tokBadSubW 1000
      = .ok (some [("sub", Value.str "abc")]) ∧
    handle_get_current_user cfgJwtW (fun _ => tokBadSubW) dbEmptyW 1000
        (some "Bearer t")
      = .uncaught (.valueError "invalid literal for int() with base 10: abc") := by
  exact ⟨rfl, rfl⟩

/-- C1 (amended): after a successful verification, an absent `sub` is a
terminal 401 `Invalid token payload`; a present but non-numeric string `sub`
reaches the unguarded `int()` call, whose `ValueError` escapes uncaught. -/
theorem C1_subject_handling (cfg : Config) (p : Provider)
    (env : String → Token) (db : Int → Option UserE) (now : Int) (t : String)
    (payload : Claims) (hp : get_auth_provider cfg = .ok p)
    (hne : t.data ≠ []) (hns : ∀ c ∈ t.data, isPySpace c = false)
    (hv : provider_verify_token cfg p (env t) now = .ok (some payload)) :
    (dictGet payload "sub" = none →
      handle_get_current_user cfg env db now (some ("Bearer " ++ t)) =
        .http { status_code := 401, detail := "Invalid token payload",
                headers := some bearerHeaders }) ∧
    (∀ s, dictGet payload "sub" = some (Value.str s) →
      pyIntOfString s = none →
      handle_get_current_user cfg env db now (some ("Bearer " ++ t)) =
        .uncaught (.valueError
          ("invalid literal for int() with base 10: " ++ s))) := by
  have hred := handle_verified cfg p env db now t payload hp hne hns hv
  constructor
  · intro hsub
    rw [hred]
    simp [hsub]
  · intro s hsub hnum
    rw [hred]
    simp [hsub, pyIntOfValue, hnum, pyStr]

/-- C1 witness: the absent-`sub` arm at a concrete request. -/
theorem C1_witness :
    handle_get_current_user cfgJwtW (fun _ => tokNoSubW) dbEmptyW 1000
        (some ("Bearer " ++ "t"))
      = .http { status_code := 401, detail := "Invalid token payload",
                headers := some bearerHeaders } :=
  (C1_subject_handling cfgJwtW .jwtP (fun _ => tokNoSubW) dbEmptyW 1000 "t"
    [("x", Value.str "y")] rfl (by decide) (by decide) rfl).1 rfl

/-- C2 counterexample: with an unrecognized `AUTH_TYPE`, the selector's
`ValueError` is raised while handling a request (the selector runs as a
per-request dependency), not as a startup failure. -/
theorem C2_counterexample :
    handle_get_current_user cfgBogusW (fun _ => Token.raw "x") dbEmptyW 0
        (some "Bearer t")
      = .uncaught (.valueError "Unsupported authentication type: oauth2") := by
  exact rfl

/-- C2 (amended): `get_auth_provider` is a pure function of `AUTH_TYPE`
mapping `"jwt"` and `"login_password"` each to one concrete provider and
raising `ValueError` otherwise; being a per-request dependency, an
unrecognized value surfaces as an uncaught error during request handling. -/
theorem C2_provider_selector (cfg : Config) (env : String → Token)
    (db : Int → Option UserE) (now : Int) (auth : Option String) :
    (cfg.AUTH_TYPE = "jwt" → get_auth_provider cfg = .ok .jwtP) ∧
    (cfg.AUTH_TYPE = "login_password" →
      get_auth_provider cfg
        = (LoginPasswordProvider.construct cfg).map .loginPasswordP) ∧
    (cfg.AUTH_TYPE ≠ "jwt" → cfg.AUTH_TYPE ≠ "login_password" →
      get_auth_provider cfg
          = .error ("Unsupported authentication type: " ++ cfg.AUTH_TYPE) ∧
      handle_get_current_user cfg env db now auth
        = .uncaught (.valueError
            ("Unsupported authentication type: " ++ cfg.AUTH_TYPE))) := by
  refine ⟨?_, ?_, ?_⟩
  · intro h
    unfold get_auth_provider
    rw [if_pos h]
  · intro h
    unfold get_auth_provider
    rw [if_neg (by rw [h]; decide), if_pos h]
  · intro h1 h2
    have hsel : get_auth_provider cfg
        = .error ("Unsupported authentication type: " ++ cfg.AUTH_TYPE) := by
      unfold get_auth_provider
      rw [if_neg h1, if_neg h2]
    exact ⟨hsel, by simp only [handle_get_current_user, hsel]⟩

/-- C2 witness: the two recognized kinds and one rejected kind, concretely. -/
theorem C2_witness :
    get_auth_provider cfgJwtW = .ok .jwtP ∧
    get_auth_provider cfgSessW
      = (LoginPasswordProvider.construct cfgSessW).map .loginPasswordP ∧
    handle_get_current_user cfgNoneW (fun _ => Token.raw "x") dbEmptyW 0
        (some "Bearer t")
      = .uncaught (.valueError ("Unsupported authentication type: " ++ "none")) :=
  ⟨(C2_provider_selector cfgJwtW (fun _ => Token.raw "x") dbEmptyW 0
      (some "Bearer t")).1 rfl,
   (C2_provider_selector cfgSessW (fun _ => Token.raw "x") dbEmptyW 0
      (some "Bearer t")).2.1 rfl,
   ((C2_provider_selector cfgNoneW (fun _ => Token.raw "x") dbEmptyW 0
      (some "Bearer t")).2.2 (by decide) (by decide)).2⟩

/-- C3 counterexample: selecting `login_password` with no
`SESSION_SECRET_KEY` raises the constructor's `ValueError` while a request
is being handled — the provider is constructed per request, so the failure
is a per-request error, not a startup-only one. -/
theorem C3_counterexample :
    handle_get_current_user cfgSessNoKeyW (fun _ => Token.raw "x") dbEmptyW 0
        (some "Bearer t")
      = .uncaught (.valueError
          "SESSION_SECRET_KEY is required for session authentication") := by
  exact rfl

/-- C3 (amended): the session provider's constructor raises `ValueError`
whenever `SESSION_SECRET_KEY` is falsy, and — the provider being built by a
per-request dependency — that error escapes during every request handled
under the session kind. -/
theorem C3_session_secret_required (cfg : Config) (env : String → Token)
    (db : Int → Option UserE) (now : Int) (auth : Option String)
    (hty : cfg.AUTH_TYPE = "login_password")
    (hsk : cfg.SESSION_SECRET_KEY = none ∨ cfg.SESSION_SECRET_KEY = some "") :
    LoginPasswordProvider.construct cfg
      = .error "SESSION_SECRET_KEY is required for session authentication" ∧
    handle_get_current_user cfg env db now auth
      = .uncaught (.valueError
          "SESSION_SECRET_KEY is required for session authentication") := by
  have hcon : LoginPasswordProvider.construct cfg
      = .error "SESSION_SECRET_KEY is required for session authentication" := by
    unfold LoginPasswordProvider.construct
    rcases hsk with h | h
    · rw [h]
    · rw [h]
      simp
  have hsel : get_auth_provider cfg
      = .error "SESSION_SECRET_KEY is required for session authentication" := by
    unfold get_auth_provider
    rw [if_neg (by rw [hty]; decide), if_pos hty, hcon]
    rfl
  exact ⟨hcon, by simp only [handle_get_current_user, hsel]⟩

/-- C3 witness: the empty-string (still falsy) secret arm, concretely. -/
theorem C3_witness :
    LoginPasswordProvider.construct cfgSessEmptyKeyW
      = .error "SESSION_SECRET_KEY is required for session authentication" ∧
    handle_get_current_user cfgSessEmptyKeyW (fun _ => Token.raw "x") dbEmptyW
        0 none
      = .uncaught (.valueError
          "SESSION_SECRET_KEY is required for session authentication") :=
  C3_session_secret_required cfgSessEmptyKeyW (fun _ => Token.raw "x")
    dbEmptyW 0 none rfl (Or.inr rfl)

/-- C4 counterexample: under the session provider, a garbage token produces
a 401 `Invalid session` rejection carrying no headers at all — no
`WWW-Authenticate: Bearer` hint. -/
theorem C4_counterexample :
    handle_get_current_user cfgSessW (fun _ => Token.raw "garbage") dbEmptyW 0
        (some "Bearer t")
      = .http { status_code := 401, detail := "Invalid session",
                headers := none } := by
  exact rfl

/-- C4 (amended): whatever provider is configured, every 401 the pipeline
raises carries the `WWW-Authenticate: Bearer` hint unless it is one the
session provider's `verify_token` raised — in particular the pipeline's own
401s (missing header, wrong scheme, malformed header, missing subject,
unknown user) always carry the hint, as do all JWT-provider 401s — while
the session provider's verification 401s (expired / invalid session) carry
no headers. -/
theorem C4_www_authenticate_headers (cfg : Config) (env : String → Token)
    (db : Int → Option UserE) (now now' : Int) (auth : Option String)
    (st : LoginPasswordProvider.State) (tok : Token) :
    (∀ e, handle_get_current_user cfg env db now auth = .http e →
      e.status_code = 401 ∧
      (e.headers = some bearerHeaders ∨
        ∃ st' tok', LoginPasswordProvider.verify_token st' tok' now
          = .error e)) ∧
    (∀ e, cfg.AUTH_TYPE = "jwt" →
      handle_get_current_user cfg env db now auth = .http e →
      e.status_code = 401 ∧ e.headers = some bearerHeaders) ∧
    (∀ e, LoginPasswordProvider.verify_token st tok now' = .error e →
      e.status_code = 401 ∧ e.headers = none) :=
  ⟨fun e h => handle_http_bearer_or_session cfg env db now auth e h,
   fun e hjwt h => handle_jwt_http_props cfg env db now auth e hjwt h,
   fun e h => lp_verify_error_props st tok now' e h⟩

/-- C4 witness: a missing-header rejection under the session provider (with
the hint), a wrong-scheme rejection under the JWT provider (with the hint),
and a session verification rejection (without), concretely. -/
theorem C4_witness :
    handle_get_current_user cfgSessW (fun _ => Token.raw "g") dbEmptyW 0 none
      = .http notAuthW ∧
    notAuthW.status_code = 401 ∧
    (notAuthW.headers = some bearerHeaders ∨
      ∃ st' tok', LoginPasswordProvider.verify_token st' tok' 0
        = .error notAuthW) ∧
    handle_get_current_user cfgJwtW (fun _ => Token.raw "g") dbEmptyW 0
        (some "Basic abc") = .http schemeErrW ∧
    schemeErrW.status_code = 401 ∧
    schemeErrW.headers = some bearerHeaders ∧
    LoginPasswordProvider.verify_token stW (Token.raw "g") 0
      = .error sessErrW ∧
    sessErrW.status_code = 401 ∧
    sessErrW.headers = none := by
  have hs := C4_www_authenticate_headers cfgSessW (fun _ => Token.raw "g")
    dbEmptyW 0 0 none stW (Token.raw "g")
  have hj := C4_www_authenticate_headers cfgJwtW (fun _ => Token.raw "g")
    dbEmptyW 0 0 (some "Basic abc") stW (Token.raw "g")
  exact ⟨rfl, (hs.1 notAuthW rfl).1, (hs.1 notAuthW rfl).2, rfl,
    (hj.2.1 schemeErrW rfl rfl).1, (hj.2.1 schemeErrW rfl rfl).2, rfl,
    (hj.2.2 sessErrW rfl).1, (hj.2.2 sessErrW rfl).2⟩

/-- C5: issue-then-verify round trip before expiry preserves
`subject = "42"` for both providers. -/
theorem C5_round_trip (cfg : Config) (data : Claims) (ed : Option Int)
    (now : Int) (st : LoginPasswordProvider.State) (sid : String)
    (hsub : dictGet data "sub" = some (.str "42"))
    (hacc : 0 < cfg.ACCESS_TOKEN_EXPIRE_MINUTES)
    (hed : ∀ d, ed = some d → 0 < d)
    (hsid : ∀ c ∈ sid.data, isUrlSafeChar c = true)
    (hage : 0 ≤ st.max_age) :
    (∃ payload, JWTProvider.verify_token cfg
        (.jwt (JWTProvider.create_access_token cfg data ed now).2) now
        = .ok (some payload) ∧ dictGet payload "sub" = some (.str "42")) ∧
    (∃ payload, LoginPasswordProvider.verify_token st
        (LoginPasswordProvider.create_access_token st sid data now) now
        = .ok (some payload) ∧ dictGet payload "sub" = some (.str "42")) := by
  constructor
  · refine ⟨(JWTProvider.create_access_token cfg data ed now).2.payload,
      jwt_round_trip cfg data ed now hacc hed, ?_⟩
    have hne' : ("sub" : String) ≠ "exp" := by decide
    simp only [JWTProvider.create_access_token]
    rw [dictGet_dictUpdate_ne data "exp" "sub" _ hne']
    exact hsub
  · exact ⟨[("sub", .str "42"), ("session_id", .str sid)],
      lp_round_trip st sid data "42" now hsub hsid hage, rfl⟩

/-- C5 witness: the round trip at a concrete claims map and session id. -/
theorem C5_witness :
    (∃ payload, JWTProvider.verify_token cfgJwtW
        (.jwt (JWTProvider.create_access_token cfgJwtW
          [("sub", Value.str "42")] none 0).2) 0
        = .ok (some payload) ∧ dictGet payload "sub" = some (.str "42")) ∧
    (∃ payload, LoginPasswordProvider.verify_token stW
        (LoginPasswordProvider.create_access_token stW "SID"
          [("sub", Value.str "42")] 0) 0
        = .ok (some payload) ∧ dictGet payload "sub" = some (.str "42")) :=
  C5_round_trip cfgJwtW [("sub", Value.str "42")] none 0 stW "SID" rfl
    (by decide) (fun d h => nomatch h) (by decide) (by decide)

/-- C6: issuing a session for subject `"7"` and verifying it recovers
exactly `{"sub": "7", "session_id": <generated id>}` — the first-`:` split
returns the URL-safe session id unmodified. -/
theorem C6_session_separator (st : LoginPasswordProvider.State) (sid : String)
    (now : Int) (hsid : ∀ c ∈ sid.data, isUrlSafeChar c = true)
    (hage : 0 ≤ st.max_age) :
    LoginPasswordProvider.verify_token st
      (LoginPasswordProvider.create_access_token st sid
        [("sub", Value.str "7")] now) now
      = .ok (some [("sub", Value.str "7"), ("session_id", Value.str sid)]) :=
  lp_round_trip st sid [("sub", Value.str "7")] "7" now rfl hsid hage

/-- C6 witness: a concrete URL-safe session id round trip. -/
theorem C6_witness :
    LoginPasswordProvider.verify_token stW
      (LoginPasswordProvider.create_access_token stW "A-Za_z09"
        [("sub", Value.str "7")] 100) 100
      = .ok (some [("sub", Value.str "7"),
                   ("session_id", Value.str "A-Za_z09")]) :=
  C6_session_separator stW "A-Za_z09" 100 (by decide) (by decide)

/-- C7: a verified token whose subject resolves to an inactive principal
yields `403 Inactive user` (not 401), and a 403 can only come from the
activity check on a successfully resolved, inactive user. -/
theorem C7_inactive_forbidden (cfg : Config) (p : Provider)
    (env : String → Token) (db : Int → Option UserE) (now : Int) (t : String)
    (payload : Claims) (v : Value) (uid : Int) (u : UserE)
    (hp : get_auth_provider cfg = .ok p) (hne : t.data ≠ [])
    (hns : ∀ c ∈ t.data, isPySpace c = false)
    (hv : provider_verify_token cfg p (env t) now = .ok (some payload))
    (hsub : dictGet payload "sub" = some v) (hnum : pyIntOfValue v = some uid)
    (hdb : db uid = some u) (hact : u.is_active = false) :
    handle_get_current_active_user cfg env db now (some ("Bearer " ++ t))
      = .http { status_code := 403, detail := "Inactive user",
                headers := none } ∧
    (∀ auth e, handle_get_current_active_user cfg env db now auth = .http e →
      e.status_code = 403 →
      e = { status_code := 403, detail := "Inactive user", headers := none } ∧
      ∃ u', handle_get_current_user cfg env db now auth = .ok u' ∧
        u'.is_active = false) := by
  constructor
  · have hred := handle_verified cfg p env db now t payload hp hne hns hv
    have hok : handle_get_current_user cfg env db now (some ("Bearer " ++ t))
        = .ok u := by
      rw [hred]
      simp [hsub, hnum, hdb]
    unfold handle_get_current_active_user
    rw [hok]
    simp [hact]
  · intro auth e h h403
    exact forbidden_only_from_activity cfg env db now auth e h h403

/-- C7 witness: the inactive user 42 at a concrete request. -/
theorem C7_witness :
    handle_get_current_active_user cfgJwtW (fun _ => tokGoodW) dbInactiveW 0
        (some ("Bearer " ++ "t"))
      = .http { status_code := 403, detail := "Inactive user",
                headers := none } :=
  (C7_inactive_forbidden cfgJwtW .jwtP (fun _ => tokGoodW) dbInactiveW 0 "t"
    [("sub", Value.str "42")] (Value.str "42") 42
    { id := 42, is_active := false } rfl (by decide) (by decide) rfl rfl rfl
    rfl rfl).1

/-- C8: a verified token whose numeric subject is unknown to the repository
yields `401 User not found` — the same status class as any provider
verification failure, so the caller cannot tell it from a bad credential. -/
theorem C8_unknown_subject (cfg : Config) (p : Provider)
    (env : String → Token) (db : Int → Option UserE) (now : Int) (t : String)
    (payload : Claims) (v : Value) (uid : Int)
    (hp : get_auth_provider cfg = .ok p) (hne : t.data ≠ [])
    (hns : ∀ c ∈ t.data, isPySpace c = false)
    (hv : provider_verify_token cfg p (env t) now = .ok (some payload))
    (hsub : dictGet payload "sub" = some v) (hnum : pyIntOfValue v = some uid)
    (hdb : db uid = none) :
    handle_get_current_user cfg env db now (some ("Bearer " ++ t))
      = .http { status_code := 401, detail := "User not found",
                headers := some bearerHeaders } ∧
    (∀ tok' now' e, provider_verify_token cfg p tok' now' = .error e →
      e.status_code = 401) := by
  constructor
  · rw [handle_verified cfg p env db now t payload hp hne hns hv]
    simp [hsub, hnum, hdb]
  · intro tok' now' e he
    exact provider_verify_error_status cfg p tok' now' e he

/-- C8 witness: user 42 absent from an empty repository, concretely. -/
theorem C8_witness :
    handle_get_current_user cfgJwtW (fun _ => tokGoodW) dbEmptyW 0
        (some ("Bearer " ++ "t"))
      = .http { status_code := 401, detail := "User not found",
                headers := some bearerHeaders } :=
  (C8_unknown_subject cfgJwtW .jwtP (fun _ => tokGoodW) dbEmptyW 0 "t"
    [("sub", Value.str "42")] (Value.str "42") 42 rfl (by decide) (by decide)
    rfl rfl rfl rfl).1

/-- C9: `verify_token` never returns `None` under either provider, so the
providers' `None`-payload 401 branches are unreachable and the pipeline's
unguarded `payload.get("sub")` can never fault on a `None` payload. -/
theorem C9_verify_never_none (cfg : Config) (st : LoginPasswordProvider.State)
    (tok : Token) (now : Int) (env : String → Token) (db : Int → Option UserE)
    (auth : Option String) :
    (∀ c, JWTProvider.verify_token cfg tok now = .ok c → c.isSome = true) ∧
    (∀ c, LoginPasswordProvider.verify_token st tok now = .ok c →
      c.isSome = true) ∧
    (∀ e, JWTProvider.get_current_user cfg tok now = .error e →
      e.detail ≠ "Could not validate credentials") ∧
    (∀ e, LoginPasswordProvider.get_current_user st tok now = .error e →
      e.detail ≠ "Could not validate credentials") ∧
    (∀ msg, handle_get_current_user cfg env db now auth
      ≠ .uncaught (.attributeError msg)) := by
  refine ⟨fun c h => jwt_verify_ok_isSome cfg tok now c h,
          fun c h => lp_verify_ok_isSome st tok now c h, ?_, ?_, ?_⟩
  · intro e h
    unfold JWTProvider.get_current_user at h
    split at h
    · cases h
      rcases jwt_verify_error_detail _ _ _ _ (by assumption)
        with hd | hd <;> simp [hd]
    · exact absurd (jwt_verify_ok_isSome _ _ _ none (by assumption)) (by simp)
    · exact absurd h (by simp)
  · intro e h
    unfold LoginPasswordProvider.get_current_user at h
    split at h
    · cases h
      rcases lp_verify_error_detail _ _ _ _ (by assumption)
        with hd | hd <;> simp [hd]
    · exact absurd (lp_verify_ok_isSome _ _ _ none (by assumption)) (by simp)
    · exact absurd h (by simp)
  · intro msg
    unfold handle_get_current_user
    split
    · simp
    · unfold get_current_user_body
      iterate 8 (all_goals try split)
      all_goals first
        | exact absurd (provider_verify_ok_isSome _ _ _ _ none
            (by assumption)) (by simp)
        | simp

/-- C9 witness: a concrete verification result is `some`, and the concrete
pipeline never faults with the `AttributeError`. -/
theorem C9_witness :
    JWTProvider.verify_token cfgJwtW tokGoodW 0
      = .ok (some [("sub", Value.str "42")]) ∧
    (some [("sub", Value.str "42")] : Option Claims).isSome = true ∧
    handle_get_current_user cfgJwtW (fun _ => tokGoodW) dbEmptyW 0
        (some "Bearer t")
      ≠ .uncaught (.attributeError "NoneType object has no attribute get") :=
  ⟨rfl,
   (C9_verify_never_none cfgJwtW stW tokGoodW 0 (fun _ => tokGoodW) dbEmptyW
      (some "Bearer t")).1 _ rfl,
   (C9_verify_never_none cfgJwtW stW tokGoodW 0 (fun _ => tokGoodW) dbEmptyW
      (some "Bearer t")).2.2.2.2 _⟩

/-- C10: both issuers return a fresh claims dict — the caller's map is
unchanged — preserving every key except `exp`, which is overwritten with
`now` plus the applicable TTL no matter what the caller supplied. -/
theorem C10_issue_frame (cfg : Config) (data : Claims) (ed : Option Int)
    (now : Int) (k : String) (hk : k ≠ "exp") :
    (JWTProvider.create_access_token cfg data ed now).1 = data ∧
    dictGet (JWTProvider.create_access_token cfg data ed now).2.payload k
      = dictGet data k ∧
    dictGet (JWTProvider.create_access_token cfg data ed now).2.payload "exp"
      = some (.int (match ed with
          | some d => if d = 0 then now + cfg.ACCESS_TOKEN_EXPIRE_MINUTES * 60
                      else now + d
          | none => now + cfg.ACCESS_TOKEN_EXPIRE_MINUTES * 60)) ∧
    (JWTProvider.create_refresh_token cfg data now).1 = data ∧
    dictGet (JWTProvider.create_refresh_token cfg data now).2.payload k
      = dictGet data k ∧
    dictGet (JWTProvider.create_refresh_token cfg data now).2.payload "exp"
      = some (.int (now + cfg.REFRESH_TOKEN_EXPIRE_DAYS * 86400)) := by
  refine ⟨rfl, ?_, ?_, rfl, ?_, ?_⟩ <;>
    simp only [JWTProvider.create_access_token,
      JWTProvider.create_refresh_token] <;>
    first
      | exact dictGet_dictUpdate_ne data "exp" k _ hk
      | exact dictGet_dictUpdate_self data "exp" _

/-- C10 witness: a caller-supplied `exp` of 999 is overwritten with
`100 + 30 * 60 = 1900` while `sub` survives. -/
theorem C10_witness :
    dictGet (JWTProvider.create_access_token cfgJwtW
        [("sub", Value.str "42"), ("exp", Value.int 999)] none 100).2.payload
        "sub"
      = some (Value.str "42") ∧
    dictGet (JWTProvider.create_access_token cfgJwtW
        [("sub", Value.str "42"), ("exp", Value.int 999)] none 100).2.payload
        "exp"
      = some (Value.int 1900) := by
  have h := C10_issue_frame cfgJwtW
    [("sub", Value.str "42"), ("exp", Value.int 999)] none 100 "sub"
    (by decide)
  exact ⟨h.2.1.trans (by decide), h.2.2.1.trans (by decide)⟩

end FastApiAuth
